import Mathlib

/-!
Verification development for the Adaptive Cognitive Trait and Misconception
Modeling Engine of the Misconception-driven STEM question generation platform.

The definitions below are a shallow embedding of the Python services
`cognitive_trait_update.py`, `misconception_extraction.py` and `assessment.py`
(backend/app/services) together with the data models of
`backend/app/models/misconception.py` and `backend/app/models/user.py`.
Python floats are embedded as exact rationals; timestamps as natural numbers;
external services (the LLM clients, the sentence-transformer embedder and the
vector store) appear as explicit inputs, following the source code's own
boundary to those collaborators.
-/

/-- A clamp to the unit interval, the `max(0.0, min(1.0, x))` idiom used
throughout `cognitive_trait_update.py`. -/
def clamp01 (x : ℚ) : ℚ := max 0 (min 1 x)

/-- Embedding of the `misconception_addressed` payload consumed by
`_gather_evidence` (an affected-trait list plus a confidence). -/
structure MisconceptionAddressed where
  affected_traits : List String
  confidence : ℚ
deriving DecidableEq

/-- Embedding of one quiz-response record as read by
`CognitiveTraitUpdateService.update_traits` and `_gather_evidence`. -/
structure QuizResponse where
  question_number : Option Int
  is_correct : Bool
  confidence : ℚ
  reasoning : String
  misconception_addressed : Option MisconceptionAddressed
deriving DecidableEq

/-- Embedding of one question record with its Q-matrix tags and the metadata
used by `_infer_traits_from_question`. -/
structure Question where
  question_number : Option Int
  traits_targeted : List String
  requires_calculation : Bool
  difficulty : String
  misconception_target : Bool
deriving DecidableEq

/-- One evidence sample: normalized score plus weight, as returned by
`_gather_evidence`. -/
structure EvidenceSample where
  score : ℚ
  weight : ℚ
deriving DecidableEq

/-- Embedding of `CognitiveTraitUpdateService._calculate_calibration_score`:
`1 - |confidence - accuracy|` with accuracy 1 for a correct answer, else 0.
The `trait` argument is unused in the source as well. -/
def calculate_calibration_score (confidence : ℚ) (is_correct : Bool) (trait : String) : ℚ :=
  let accuracy : ℚ := if is_correct then 1 else 0
  1 - |confidence - accuracy|

/-- Embedding of `CognitiveTraitUpdateService._gather_evidence`.  The NLP
reasoning-quality scorer `_score_reasoning_quality` is passed in as the
function argument `scorer` (text, trait) ↦ score, since the two scoring
strategies depend on external NLP tooling; every theorem below quantifies over
it.  The sequential `evidence_score += ...` / `evidence_weight += ...`
accumulation of the source is kept, including the guard that only a nonempty
reasoning text contributes, the misconception penalty subtracted from the
score accumulator after all weights are in, and the final
`max(0.0, min(1.0, score / weight if weight > 0 else 0.5))`. -/
def gather_evidence (scorer : String → String → ℚ) (response : QuizResponse)
    (question : Question) (trait : String) : EvidenceSample :=
  let is_correct := response.is_correct
  let correctness_score : ℚ := if is_correct then 1 else 0
  let score1 : ℚ := 0 + correctness_score * 1
  let weight1 : ℚ := 0 + 1
  let calibration_score := calculate_calibration_score response.confidence is_correct trait
  let calibration_weight : ℚ :=
    if trait ∈ ["confidence", "metacognition", "precision"] then 12/10 else 8/10
  let score2 : ℚ := score1 + calibration_score * calibration_weight
  let weight2 : ℚ := weight1 + calibration_weight
  let reasoning_weight : ℚ :=
    if trait ∈ ["analytical_depth", "metacognition", "curiosity"] then 15/10 else 5/10
  let score3 : ℚ :=
    if response.reasoning = "" then score2
    else score2 + scorer response.reasoning trait * reasoning_weight
  let weight3 : ℚ :=
    if response.reasoning = "" then weight2 else weight2 + reasoning_weight
  let score4 : ℚ :=
    match response.misconception_addressed with
    | none => score3
    | some m =>
        if ¬ is_correct ∧ trait ∈ m.affected_traits then
          score3 - m.confidence * (15/100) * weight3
        else score3
  let final_score : ℚ := if 0 < weight3 then score4 / weight3 else 1/2
  ⟨clamp01 final_score, weight3⟩

/-- Embedding of `CognitiveTraitUpdateService._infer_traits_from_question`:
Q-matrix inference from question metadata, with `list(set(...))`
deduplication rendered as `List.dedup`. -/
def infer_traits_from_question (question : Question) : List String :=
  let t1 := if question.requires_calculation then ["precision", "analytical_depth"] else []
  let t2 := if question.difficulty = "hard" then ["cognitive_flexibility", "analytical_depth"] else []
  let t3 := if question.misconception_target then ["pattern_recognition"] else []
  let traits := t1 ++ t2 ++ t3
  if traits = [] then ["analytical_depth", "precision"] else traits.dedup

/-- The traits a question effectively targets in `update_traits`: the explicit
`traits_targeted` Q-matrix row when nonempty, otherwise the inferred one. -/
def effective_targets (question : Question) : List String :=
  if question.traits_targeted = [] then infer_traits_from_question question
  else question.traits_targeted

/-- Embedding of `CognitiveTraitUpdateService._find_question`: first question
whose `question_number` equals the response's (including `None == None`). -/
def find_question (question_number : Option Int) (questions : List Question) : Option Question :=
  questions.find? (fun q => q.question_number == question_number)

/-- The per-trait evidence accumulator of `update_traits`
(`observations` length, `total_weight`, `weighted_sum`). -/
structure TraitEvidenceAcc where
  observations : Nat
  total_weight : ℚ
  weighted_sum : ℚ
deriving DecidableEq

/-- The response/target double loop of `update_traits` (lines 110-140),
projected onto one trait key of `current_traits`: for each response whose
question is found, every occurrence of `trait` among the question's effective
targets appends one `gather_evidence` sample to the accumulator.  The source's
`if trait not in trait_evidence: continue` guard is the projection itself —
the accumulator for a trait key is only ever touched by loop iterations with
that exact trait. -/
def accumulate_trait_evidence (scorer : String → String → ℚ)
    (quiz_responses : List QuizResponse) (questions : List Question)
    (trait : String) : TraitEvidenceAcc :=
  quiz_responses.foldl (fun acc response =>
    match find_question response.question_number questions with
    | none => acc
    | some question =>
        (effective_targets question).foldl (fun acc2 t =>
          if t = trait then
            let evidence := gather_evidence scorer response question trait
            ⟨acc2.observations + 1, acc2.total_weight + evidence.weight,
              acc2.weighted_sum + evidence.score * evidence.weight⟩
          else acc2) acc) ⟨0, 0, 0⟩

/-- Embedding of the `trait_sensitivity` table of
`CognitiveTraitUpdateService.__init__` merged with the
`self.trait_sensitivity.get(trait, self.default_kalman_gain)` lookup
(default gain 0.2). -/
def trait_sensitivity (trait : String) : ℚ :=
  if trait = "curiosity" then 35/100
  else if trait = "confidence" then 30/100
  else if trait = "metacognition" then 25/100
  else if trait = "cognitive_flexibility" then 25/100
  else if trait = "analytical_depth" then 20/100
  else if trait = "pattern_recognition" then 20/100
  else if trait = "precision" then 15/100
  else if trait = "attention_consistency" then 18/100
  else 20/100

/-- Per-trait diagnostics of `update_traits`; `avg_performance` and
`kalman_gain` are only present on the evidence branch, as in the source. -/
structure TraitDiagnostics where
  old_value : ℚ
  new_value : ℚ
  change : ℚ
  evidence_count : Nat
  avg_performance : Option ℚ
  kalman_gain : Option ℚ
  method : String
deriving DecidableEq

/-- The per-trait body of the final loop of `update_traits` (lines 146-191):
keep the value with a `no_evidence` diagnostic when the accumulated weight is
zero, otherwise apply the Kalman-style innovation update with the
trait-specific gain and clip to the unit interval. -/
def update_single_trait (scorer : String → String → ℚ)
    (quiz_responses : List QuizResponse) (questions : List Question)
    (trait : String) (current_value : ℚ) : ℚ × TraitDiagnostics :=
  let acc := accumulate_trait_evidence scorer quiz_responses questions trait
  if acc.total_weight = 0 then
    (current_value, ⟨current_value, current_value, 0, 0, none, none, "no_evidence"⟩)
  else
    let avg_performance := acc.weighted_sum / acc.total_weight
    let kalman_gain := trait_sensitivity trait
    let innovation := avg_performance - current_value
    let new_value := clamp01 (current_value + kalman_gain * innovation)
    (new_value, ⟨current_value, new_value, new_value - current_value, acc.observations,
      some avg_performance, some kalman_gain, "cdm_bkt_kalman"⟩)

/-- The result shape of `update_traits` (the evidence log is not modelled;
no claim depends on it). -/
structure UpdateTraitsResult where
  updated_traits : List (String × ℚ)
  diagnostics : List (String × TraitDiagnostics)
deriving DecidableEq

/-- Embedding of `CognitiveTraitUpdateService.update_traits`: one entry of
`updated_traits` and `diagnostics` per key of `current_traits`, in order,
each computed by `update_single_trait` over the same responses/questions. -/
def update_traits (scorer : String → String → ℚ) (current_traits : List (String × ℚ))
    (quiz_responses : List QuizResponse) (questions : List Question) : UpdateTraitsResult :=
  { updated_traits := current_traits.map (fun p =>
      (p.1, (update_single_trait scorer quiz_responses questions p.1 p.2).1)),
    diagnostics := current_traits.map (fun p =>
      (p.1, (update_single_trait scorer quiz_responses questions p.1 p.2).2)) }

/-- ASCII lowercase of one character, the semantics of Python `str.lower()`
on the ASCII texts the services compare. -/
def char_lower (c : Char) : Char :=
  if 65 ≤ c.toNat ∧ c.toNat ≤ 90 then Char.ofNat (c.toNat + 32) else c

/-- Lowercased character content of a string (`text.lower()`). -/
def lower_chars (s : String) : List Char := s.data.map char_lower

/-- Splitting a character list at every separator, keeping empty pieces, the
semantics of Python `str.split(sep)` at the character level. -/
def py_split (p : Char → Bool) (l : List Char) : List (List Char) :=
  l.foldr (fun c acc =>
    if p c then [] :: acc
    else match acc with
      | [] => [[c]]
      | w :: ws => (c :: w) :: ws) [[]]

/-- The word list of Python `text.split()` (split on whitespace, drop empty
pieces), used by `_score_reasoning_quality` for its word count. -/
def py_words (text : String) : List (List Char) :=
  (py_split Char.isWhitespace text.data).filter (fun w => w ≠ [])

/-- The six trait names that own a dedicated branch in
`_enhanced_heuristic_scoring`'s `if`/`elif` dispatch. -/
def heuristic_handled_traits : List String :=
  ["analytical_depth", "cognitive_flexibility", "metacognition", "curiosity",
   "precision", "pattern_recognition"]

/-- Shallow embedding of the trait dispatch of
`CognitiveTraitUpdateService._enhanced_heuristic_scoring` (the regex/heuristic
fallback strategy).  The regex-based bodies of the five handled branches are
abstracted as the function argument `branch_score` (trait, text) ↦ score,
since only the dispatch decides the claims here; what the embedding keeps
exactly is that the source's `if`/`elif` chain has NO final `else`: a trait
outside the handled sets leaves the initial `score = 0.0` untouched and the
function returns 0 for it, with no generic linguistic-quality fallback. -/
def enhanced_heuristic_scoring (branch_score : String → String → ℚ)
    (reasoning_text trait : String) : ℚ :=
  if trait ∈ ["analytical_depth", "cognitive_flexibility"] then
    branch_score "analytical_depth" reasoning_text
  else if trait = "metacognition" then branch_score "metacognition" reasoning_text
  else if trait = "curiosity" then branch_score "curiosity" reasoning_text
  else if trait = "precision" then branch_score "precision" reasoning_text
  else if trait = "pattern_recognition" then branch_score "pattern_recognition" reasoning_text
  else 0

/-- Embedding of `CognitiveTraitUpdateService._score_reasoning_quality` in the
regex/heuristic strategy (`ADVANCED_NLP_AVAILABLE = False`): texts of fewer
than 5 words short-circuit to the fixed 0.3, otherwise the heuristic scorer
runs and the result is clamped by `max(0.0, min(1.0, score))`. -/
def score_reasoning_quality_heuristic (branch_score : String → String → ℚ)
    (reasoning_text trait : String) : ℚ :=
  if (py_words reasoning_text).length < 5 then 3/10
  else clamp01 (enhanced_heuristic_scoring branch_score reasoning_text trait)

/-- Modelled from the spec: the "generic linguistic-quality heuristics
(sentence complexity, vocabulary diversity)" that §4.1 prescribes as the
fallback for unknown/untargeted traits (and that the deep-NLP strategy's
final `else` branch implements via spaCy: +0.3 when the average sentence
length exceeds 15 words, +0.3 when the type-token ratio exceeds 0.6).  The
regex/heuristic strategy in the source contains no such branch; this
definition exists to compare its behaviour against the spec's words. -/
def generic_linguistic_quality (text : String) : ℚ :=
  let sentences := (py_split (fun c => c == '.' || c == '!' || c == '?') text.data).filter
    (fun s => s.any (fun c => ! c.isWhitespace))
  let sent_count : Nat := max 1 sentences.length
  let total_words : Nat := (py_words text).length
  let avg_sentence_length : ℚ := (total_words : ℚ) / (sent_count : ℚ)
  let lowered := (py_words text).map (fun w => w.map char_lower)
  let ttr : ℚ := (lowered.dedup.length : ℚ) / (max 1 total_words : ℚ)
  (if 15 < avg_sentence_length then 3/10 else 0) + (if 3/5 < ttr then 3/10 else 0)

/-- Embedding of `CognitiveTraits` (`backend/app/models/user.py`): the eight
trait fields, each defaulting to the neutral 0.5. -/
structure CognitiveTraits where
  precision : ℚ
  confidence : ℚ
  analytical_depth : ℚ
  curiosity : ℚ
  metacognition : ℚ
  cognitive_flexibility : ℚ
  pattern_recognition : ℚ
  attention_consistency : ℚ
deriving DecidableEq

/-- The default-constructed `CognitiveTraits()`: every field 0.5. -/
def default_cognitive_traits : CognitiveTraits :=
  ⟨1/2, 1/2, 1/2, 1/2, 1/2, 1/2, 1/2, 1/2⟩

/-- A successfully parsed JSON trait object from the LLM: each of the eight
keys may be present or absent (`parsed.get(key, 0.5)` supplies 0.5). -/
structure ParsedTraitScores where
  precision : Option ℚ
  confidence : Option ℚ
  analytical_depth : Option ℚ
  curiosity : Option ℚ
  metacognition : Option ℚ
  cognitive_flexibility : Option ℚ
  pattern_recognition : Option ℚ
  attention_consistency : Option ℚ
deriving DecidableEq

/-- The possible outcomes of the OpenAI call inside
`score_assessment_responses`, mirroring the source's failure paths: the
request raised (service unavailable / any exception), the response content
was empty, `json.loads` failed on the content, or a JSON object was parsed. -/
inductive LLMOutcome where
  | unavailable : LLMOutcome
  | empty_content : LLMOutcome
  | malformed : LLMOutcome
  | parsed : ParsedTraitScores → LLMOutcome
deriving DecidableEq

/-- Embedding of `score_assessment_responses` (`services/assessment.py`) with
the LLM interaction made explicit: a missing API key returns the baseline
`CognitiveTraits()`; an exception, empty content or unparseable JSON returns
`CognitiveTraits()` (all fields 0.5); a parsed object yields each trait as
`clamp(parsed.get(trait, 0.5))`. -/
def score_assessment_responses (has_api_key : Bool) (outcome : LLMOutcome) : CognitiveTraits :=
  if ¬ has_api_key then default_cognitive_traits
  else
    match outcome with
    | .unavailable => default_cognitive_traits
    | .empty_content => default_cognitive_traits
    | .malformed => default_cognitive_traits
    | .parsed p =>
        ⟨clamp01 (p.precision.getD (1/2)), clamp01 (p.confidence.getD (1/2)),
         clamp01 (p.analytical_depth.getD (1/2)), clamp01 (p.curiosity.getD (1/2)),
         clamp01 (p.metacognition.getD (1/2)), clamp01 (p.cognitive_flexibility.getD (1/2)),
         clamp01 (p.pattern_recognition.getD (1/2)), clamp01 (p.attention_consistency.getD (1/2))⟩

/-- Embedding of `PersonalMisconception`
(`backend/app/models/misconception.py`), timestamps as naturals. -/
structure PersonalMisconception where
  misconception_id : String
  misconception_text : String
  topic : String
  question_context : Option String
  student_reasoning : Option String
  first_encountered : Nat
  frequency : Nat
  last_occurrence : Nat
  resolved : Bool
  resolution_date : Option Nat
  correct_streak : Nat
  targeted_question_count : Nat
  severity : String
  related_trait : Option String
deriving DecidableEq

/-- Embedding of `DiscoveredMisconception`
(`backend/app/models/misconception.py`). -/
structure DiscoveredMisconception where
  misconception_text : String
  topic : String
  confidence : ℚ
  evidence : String
  severity : String
  related_trait : Option String
  suggested_remediation : Option String
deriving DecidableEq

/-- A user document's `personal_misconceptions` field: a topic-keyed mapping
to lists of misconception records, as stored in MongoDB. -/
abbrev PersonalMisconceptionMap : Type := List (String × List PersonalMisconception)

/-- Reading `personal_misconceptions.get(topic, [])` from the document. -/
def get_topic_misconceptions (pm : PersonalMisconceptionMap) (topic : String) :
    List PersonalMisconception :=
  (((pm.find? (fun e => e.1 == topic))).map Prod.snd).getD []

/-- Writing the topic's array back: MongoDB updates the matched key of the
document in place (keys of a document are unique) and `$push` creates the
field when absent. -/
def set_topic_misconceptions (pm : PersonalMisconceptionMap) (topic : String)
    (l : List PersonalMisconception) : PersonalMisconceptionMap :=
  match pm with
  | [] => [(topic, l)]
  | e :: tl => if e.1 == topic then (e.1, l) :: tl else e :: set_topic_misconceptions tl topic l

/-- MongoDB's positional `$` update: modify the first list element matching
the filter, leave everything else untouched. -/
def update_first {α : Type} (p : α → Bool) (f : α → α) : List α → List α
  | [] => []
  | x :: xs => if p x then f x :: xs else x :: update_first p f xs

/-- Embedding of `store_personal_misconception`
(`services/misconception_extraction.py`, lines 130-224), acting on the user's
`personal_misconceptions` document field.  `now` stands for
`datetime.utcnow()` and `new_id` for the fresh `uuid.uuid4()`.  A prior
record whose lowercased text equals the discovered text is updated in place
(frequency +1, `last_occurrence` refreshed, `resolved` forced back to False,
`correct_streak` reset to 0); otherwise a new record is appended with
frequency 1, streak 0 and `resolved = False`.  The second component is the
`PersonalMisconception` object the source returns. -/
def store_personal_misconception (pm : PersonalMisconceptionMap)
    (discovered : DiscoveredMisconception) (question_context student_reasoning : String)
    (now : Nat) (new_id : String) : PersonalMisconceptionMap × PersonalMisconception :=
  let topic_misconceptions := get_topic_misconceptions pm discovered.topic
  match topic_misconceptions.find? (fun mc =>
      lower_chars mc.misconception_text == lower_chars discovered.misconception_text) with
  | some existing =>
      let updated := update_first (fun mc => mc.misconception_id == existing.misconception_id)
        (fun mc => { mc with frequency := mc.frequency + 1, last_occurrence := now,
                             resolved := false, correct_streak := 0 }) topic_misconceptions
      (set_topic_misconceptions pm discovered.topic updated,
       { existing with frequency := existing.frequency + 1, last_occurrence := now })
  | none =>
      let new_misconception : PersonalMisconception :=
        { misconception_id := new_id, misconception_text := discovered.misconception_text,
          topic := discovered.topic, question_context := some question_context,
          student_reasoning := some student_reasoning, first_encountered := now,
          frequency := 1, last_occurrence := now, resolved := false, resolution_date := none,
          correct_streak := 0, targeted_question_count := 0, severity := discovered.severity,
          related_trait := discovered.related_trait }
      (set_topic_misconceptions pm discovered.topic (topic_misconceptions ++ [new_misconception]),
       new_misconception)

/-- Embedding of `update_misconception_resolution_status`
(`services/misconception_extraction.py`, lines 493-575).  On a correct answer
the matched record's streak is incremented (positional `$` update); the
post-update document is re-read and, when the streak has reached the
threshold, the record is marked resolved with a resolution timestamp and the
function reports True.  On a wrong answer the streak is reset to 0 and
`resolved` forced to False; the function reports False. -/
def update_misconception_resolution_status (pm : PersonalMisconceptionMap)
    (topic misconception_id : String) (was_correct : Bool) (threshold : Nat)
    (now : Nat) : PersonalMisconceptionMap × Bool :=
  let topic_misconceptions := get_topic_misconceptions pm topic
  if was_correct then
    if topic_misconceptions.any (fun mc => mc.misconception_id == misconception_id) then
      let incremented := update_first (fun mc => mc.misconception_id == misconception_id)
        (fun mc => { mc with correct_streak := mc.correct_streak + 1 }) topic_misconceptions
      match incremented.find? (fun mc => mc.misconception_id == misconception_id) with
      | some mc =>
          if threshold ≤ mc.correct_streak then
            (set_topic_misconceptions pm topic
              (update_first (fun x => x.misconception_id == misconception_id)
                (fun x => { x with resolved := true, resolution_date := some now }) incremented),
             true)
          else (set_topic_misconceptions pm topic incremented, false)
      | none => (set_topic_misconceptions pm topic incremented, false)
    else (pm, false)
  else
    (set_topic_misconceptions pm topic
      (update_first (fun mc => mc.misconception_id == misconception_id)
        (fun mc => { mc with correct_streak := 0, resolved := false }) topic_misconceptions),
     false)

/-- Does `needle` start `hay`? (character-list comparison). -/
def starts_with_seq (hay needle : List Char) : Bool :=
  match hay, needle with
  | _, [] => true
  | [], _ :: _ => false
  | x :: xs, y :: ys => x == y && starts_with_seq xs ys

/-- Does `hay` contain `needle` as a contiguous subsequence? -/
def contains_seq (hay needle : List Char) : Bool :=
  match hay with
  | [] => needle.isEmpty
  | _ :: tl => starts_with_seq hay needle || contains_seq tl needle

/-- The `$regexMatch` with options "i" of the promotion pipeline, on plain
(metacharacter-free) misconception texts: case-insensitive substring
containment of the candidate in the stored text. -/
def ci_contains_text (haystack needle : String) : Bool :=
  contains_seq (lower_chars haystack) (lower_chars needle)

/-- One user document as seen by the promotion pipeline's aggregation: its
`personal_misconceptions` mapping. -/
structure UserRecord where
  user_id : String
  personal_misconceptions : PersonalMisconceptionMap

/-- The aggregation of `check_and_promote_misconception_to_global`: a user
counts when ANY topic entry holds ANY record whose text case-insensitively
contains the candidate text. -/
def user_has_misconception (misconception_text : String) (u : UserRecord) : Bool :=
  u.personal_misconceptions.any (fun e =>
    e.2.any (fun mc => ci_contains_text mc.misconception_text misconception_text))

/-- Number of distinct matching learners (`student_count` of the source's
aggregation pipeline). -/
def count_students_with_misconception (misconception_text : String)
    (users : List UserRecord) : Nat :=
  (users.filter (user_has_misconception misconception_text)).length

/-- Similarity derived from the vector store's nearest-neighbor distances
(the store returns distances sorted ascending, the source reads
`distances[0][0]`): `1 - min_distance / 2`, and 0.0 when the same-domain
query returned nothing. -/
def max_similarity_of (distances : List ℚ) : ℚ :=
  match distances with
  | [] => 0
  | d :: _ => 1 - d / 2

/-- The decision object returned by
`check_and_promote_misconception_to_global`. -/
structure PromotionDecision where
  promoted : Bool
  reason : Option String
  similarity : Option ℚ
  student_count : Option Nat
  novelty_score : Option ℚ
deriving DecidableEq

/-- The global knowledge-base record created on promotion (the metadata the
source writes to the `misconceptions` collection). -/
structure GlobalMisconceptionRecord where
  subject : String
  topic : String
  misconception_text : String
  frequency : Nat
  novelty_score : ℚ
deriving DecidableEq

/-- Embedding of `check_and_promote_misconception_to_global`
(`services/misconception_extraction.py`, lines 231-384).  The embedding
service and vector store are external: the same-domain nearest-neighbor
distances arrive as `neighbor_distances`.  Gate 1 rejects as "duplicate" when
the derived similarity reaches the threshold, before any frequency counting;
gate 2 rejects as "insufficient_frequency" when fewer distinct learners than
the threshold match case-insensitively; otherwise a new global record is
created with `novelty_score = 1 - similarity` and the decision is
promoted. -/
def check_and_promote_misconception_to_global (users : List UserRecord)
    (neighbor_distances : List ℚ) (misconception_text topic domain : String)
    (frequency_threshold : Nat) (similarity_threshold : ℚ) :
    PromotionDecision × Option GlobalMisconceptionRecord :=
  let max_similarity := max_similarity_of neighbor_distances
  if similarity_threshold ≤ max_similarity then
    (⟨false, some "duplicate", some max_similarity, none, none⟩, none)
  else
    let student_count := count_students_with_misconception misconception_text users
    if student_count < frequency_threshold then
      (⟨false, some "insufficient_frequency", none, some student_count, none⟩, none)
    else
      (⟨true, none, none, some student_count, some (1 - max_similarity)⟩,
       some ⟨domain, topic, misconception_text, student_count, 1 - max_similarity⟩)

theorem clamp01_nonneg (x : ℚ) : 0 ≤ clamp01 x := le_max_left 0 _

theorem clamp01_le_one (x : ℚ) : clamp01 x ≤ 1 := max_le (by norm_num) (min_le_left 1 x)

theorem clamp01_eq_self {x : ℚ} (h0 : 0 ≤ x) (h1 : x ≤ 1) : clamp01 x = x := by
  unfold clamp01
  rw [min_eq_right h1, max_eq_right h0]

theorem gather_evidence_weight_ge (scorer : String → String → ℚ) (r : QuizResponse)
    (q : Question) (t : String) : 9/5 ≤ (gather_evidence scorer r q t).weight := by
  simp only [gather_evidence]
  split_ifs <;> norm_num

theorem gather_evidence_weight_pos (scorer : String → String → ℚ) (r : QuizResponse)
    (q : Question) (t : String) : 0 < (gather_evidence scorer r q t).weight :=
  lt_of_lt_of_le (by norm_num) (gather_evidence_weight_ge scorer r q t)

theorem gather_evidence_score_nonneg (scorer : String → String → ℚ) (r : QuizResponse)
    (q : Question) (t : String) : 0 ≤ (gather_evidence scorer r q t).score := by
  simp only [gather_evidence]
  exact clamp01_nonneg _

theorem gather_evidence_score_le_one (scorer : String → String → ℚ) (r : QuizResponse)
    (q : Question) (t : String) : (gather_evidence scorer r q t).score ≤ 1 := by
  simp only [gather_evidence]
  exact clamp01_le_one _

/-- The invariant the evidence accumulator maintains: both totals are
nonnegative and the weighted sum never exceeds the total weight. -/
def acc_inv (a : TraitEvidenceAcc) : Prop :=
  0 ≤ a.total_weight ∧ 0 ≤ a.weighted_sum ∧ a.weighted_sum ≤ a.total_weight

theorem acc_inv_inner (scorer : String → String → ℚ) (response : QuizResponse)
    (question : Question) (trait : String) :
    ∀ (ts : List String) (a : TraitEvidenceAcc), acc_inv a →
      acc_inv (ts.foldl (fun acc2 t =>
        if t = trait then
          let evidence := gather_evidence scorer response question trait
          ⟨acc2.observations + 1, acc2.total_weight + evidence.weight,
            acc2.weighted_sum + evidence.score * evidence.weight⟩
        else acc2) a) := by
  intro ts
  induction ts with
  | nil => intro a ha; exact ha
  | cons hd tl ih =>
      intro a ha
      simp only [List.foldl_cons]
      apply ih
      by_cases h : hd = trait
      · rw [if_pos h]
        obtain ⟨h1, h2, h3⟩ := ha
        have hw : 0 < (gather_evidence scorer response question trait).weight :=
          gather_evidence_weight_pos scorer response question trait
        have hs0 : 0 ≤ (gather_evidence scorer response question trait).score :=
          gather_evidence_score_nonneg scorer response question trait
        have hs1 : (gather_evidence scorer response question trait).score ≤ 1 :=
          gather_evidence_score_le_one scorer response question trait
        have hmul : (gather_evidence scorer response question trait).score *
            (gather_evidence scorer response question trait).weight ≤
            (gather_evidence scorer response question trait).weight :=
          mul_le_of_le_one_left (le_of_lt hw) hs1
        have hmul0 : 0 ≤ (gather_evidence scorer response question trait).score *
            (gather_evidence scorer response question trait).weight :=
          mul_nonneg hs0 (le_of_lt hw)
        exact ⟨by dsimp only; linarith, by dsimp only; linarith, by dsimp only; linarith⟩
      · rw [if_neg h]
        exact ha

theorem acc_inv_holds (scorer : String → String → ℚ) (quiz_responses : List QuizResponse)
    (questions : List Question) (trait : String) :
    acc_inv (accumulate_trait_evidence scorer quiz_responses questions trait) := by
  unfold accumulate_trait_evidence
  generalize h : (⟨0, 0, 0⟩ : TraitEvidenceAcc) = a
  have ha : acc_inv a := by rw [← h]; exact ⟨le_refl 0, le_refl 0, le_refl 0⟩
  clear h
  induction quiz_responses generalizing a with
  | nil => exact ha
  | cons hd tl ih =>
      simp only [List.foldl_cons]
      apply ih
      cases hq : find_question hd.question_number questions with
      | none => exact ha
      | some question => exact acc_inv_inner scorer hd question trait _ a ha

theorem trait_sensitivity_mem (trait : String) :
    0 < trait_sensitivity trait ∧ trait_sensitivity trait < 1 := by
  unfold trait_sensitivity
  split_ifs <;> norm_num

theorem update_single_trait_value_mem (scorer : String → String → ℚ)
    (quiz_responses : List QuizResponse) (questions : List Question)
    (trait : String) (v : ℚ) (h0 : 0 ≤ v) (h1 : v ≤ 1) :
    0 ≤ (update_single_trait scorer quiz_responses questions trait v).1 ∧
    (update_single_trait scorer quiz_responses questions trait v).1 ≤ 1 := by
  simp only [update_single_trait]
  split_ifs with h
  · exact ⟨h0, h1⟩
  · exact ⟨clamp01_nonneg _, clamp01_le_one _⟩

theorem update_single_trait_no_evidence (scorer : String → String → ℚ)
    (quiz_responses : List QuizResponse) (questions : List Question)
    (trait : String) (v : ℚ)
    (hw : (accumulate_trait_evidence scorer quiz_responses questions trait).total_weight = 0) :
    update_single_trait scorer quiz_responses questions trait v =
      (v, ⟨v, v, 0, 0, none, none, "no_evidence"⟩) := by
  simp only [update_single_trait]
  rw [if_pos hw]

theorem update_single_trait_with_evidence (scorer : String → String → ℚ)
    (quiz_responses : List QuizResponse) (questions : List Question)
    (trait : String) (v : ℚ)
    (hw : ¬ (accumulate_trait_evidence scorer quiz_responses questions trait).total_weight = 0) :
    (update_single_trait scorer quiz_responses questions trait v).1 =
      clamp01 (v + trait_sensitivity trait *
        ((accumulate_trait_evidence scorer quiz_responses questions trait).weighted_sum /
         (accumulate_trait_evidence scorer quiz_responses questions trait).total_weight - v)) := by
  simp only [update_single_trait]
  rw [if_neg hw]

/-- C1: for every input trait vector whose values lie in [0,1] and every list
of quiz responses and questions (and any reasoning scorer), every trait value
in the `updated_traits` returned by `update_traits` lies in [0,1]. -/
theorem update_traits_values_in_unit_interval
    (scorer : String → String → ℚ) (current_traits : List (String × ℚ))
    (quiz_responses : List QuizResponse) (questions : List Question)
    (h : ∀ p ∈ current_traits, 0 ≤ p.2 ∧ p.2 ≤ 1) :
    ∀ p ∈ (update_traits scorer current_traits quiz_responses questions).updated_traits,
      0 ≤ p.2 ∧ p.2 ≤ 1 := by
  intro p hp
  simp only [update_traits, List.mem_map] at hp
  obtain ⟨r, hr, rfl⟩ := hp
  obtain ⟨h0, h1⟩ := h r hr
  exact update_single_trait_value_mem scorer quiz_responses questions r.1 r.2 h0 h1

/-- A trivially neutral reasoning scorer used to instantiate witnesses. -/
def zero_scorer : String → String → ℚ := fun _ _ => 0

theorem update_traits_values_in_unit_interval_witness :
    (∀ p ∈ [(("precision" : String), (1:ℚ)/2), ("curiosity", 1)], 0 ≤ p.2 ∧ p.2 ≤ 1) ∧
    ∀ p ∈ (update_traits zero_scorer [("precision", 1/2), ("curiosity", 1)]
        [⟨some 1, true, 2, "", none⟩] [⟨some 1, ["precision"], false, "medium", false⟩]).updated_traits,
      0 ≤ p.2 ∧ p.2 ≤ 1 := by
  constructor
  · intro p hp
    simp only [List.mem_cons, List.not_mem_nil, or_false] at hp
    rcases hp with rfl | rfl <;> norm_num
  · refine update_traits_values_in_unit_interval zero_scorer _ _ _ ?_
    intro p hp
    simp only [List.mem_cons, List.not_mem_nil, or_false] at hp
    rcases hp with rfl | rfl <;> norm_num

/-- C10: every evidence sample produced by `_gather_evidence` has weight at
least 1.8 (correctness contributes 1.0 and calibration at least 0.8) and a
score in [0,1]; in particular the weight is positive, so the division by the
total weight is well-defined and the zero-weight branch returning the neutral
0.5 is unreachable. -/
theorem gather_evidence_sample_wellformed :
    ∀ (scorer : String → String → ℚ) (r : QuizResponse) (q : Question) (t : String),
      9/5 ≤ (gather_evidence scorer r q t).weight ∧
      0 < (gather_evidence scorer r q t).weight ∧
      0 ≤ (gather_evidence scorer r q t).score ∧
      (gather_evidence scorer r q t).score ≤ 1 :=
  fun scorer r q t =>
    ⟨gather_evidence_weight_ge scorer r q t, gather_evidence_weight_pos scorer r q t,
     gather_evidence_score_nonneg scorer r q t, gather_evidence_score_le_one scorer r q t⟩

/-- C9: `update_traits` returns exactly the key set of `current_traits` (in
order) for both `updated_traits` and `diagnostics` — evidence for targeted
traits absent from `current_traits` can therefore never surface — and every
trait whose accumulated evidence weight is zero keeps its input value with a
`no_evidence` diagnostic of evidence count 0. -/
theorem update_traits_frame_and_no_evidence
    (scorer : String → String → ℚ) (current_traits : List (String × ℚ))
    (quiz_responses : List QuizResponse) (questions : List Question) :
    ((update_traits scorer current_traits quiz_responses questions).updated_traits.map Prod.fst
      = current_traits.map Prod.fst) ∧
    ((update_traits scorer current_traits quiz_responses questions).diagnostics.map Prod.fst
      = current_traits.map Prod.fst) ∧
    (∀ t v, (t, v) ∈ current_traits →
      (accumulate_trait_evidence scorer quiz_responses questions t).total_weight = 0 →
      (t, v) ∈ (update_traits scorer current_traits quiz_responses questions).updated_traits ∧
      (t, (⟨v, v, 0, 0, none, none, "no_evidence"⟩ : TraitDiagnostics)) ∈
        (update_traits scorer current_traits quiz_responses questions).diagnostics) := by
  refine ⟨?_, ?_, ?_⟩
  · simp only [update_traits, List.map_map]
    rfl
  · simp only [update_traits, List.map_map]
    rfl
  · intro t v htv hw
    constructor
    · simp only [update_traits, List.mem_map]
      refine ⟨(t, v), htv, ?_⟩
      rw [update_single_trait_no_evidence scorer quiz_responses questions t v hw]
    · simp only [update_traits, List.mem_map]
      refine ⟨(t, v), htv, ?_⟩
      rw [update_single_trait_no_evidence scorer quiz_responses questions t v hw]

theorem update_traits_frame_and_no_evidence_witness :
    ((update_traits zero_scorer [("precision", (1:ℚ)/2)] [] []).updated_traits.map Prod.fst
      = ["precision"]) ∧
    (("precision", (1:ℚ)/2) ∈
      (update_traits zero_scorer [("precision", (1:ℚ)/2)] [] []).updated_traits) ∧
    (("precision", (⟨1/2, 1/2, 0, 0, none, none, "no_evidence"⟩ : TraitDiagnostics)) ∈
      (update_traits zero_scorer [("precision", (1:ℚ)/2)] [] []).diagnostics) := by
  have h := update_traits_frame_and_no_evidence zero_scorer [("precision", (1:ℚ)/2)] [] []
  have hz : (accumulate_trait_evidence zero_scorer [] [] "precision").total_weight = 0 := rfl
  have h3 := h.2.2 "precision" (1/2) (by simp) hz
  exact ⟨h.1, h3.1, h3.2⟩

/-- C6: for a trait with nonzero accumulated evidence weight, with the current
value in [0,1], the Kalman update moves the value strictly toward the
evidence-weighted `avg_performance` and never overshoots past it: strictly
above the old value (and at most `avg_performance`) when the average exceeds
the old value, and at most the old value (and at least `avg_performance`)
when it is below.  The first conjunct places this per-trait update inside the
`update_traits` output. -/
theorem update_traits_monotone_toward_evidence
    (scorer : String → String → ℚ) (current_traits : List (String × ℚ))
    (quiz_responses : List QuizResponse) (questions : List Question)
    (trait : String) (v : ℚ) (hmem : (trait, v) ∈ current_traits)
    (h0 : 0 ≤ v) (h1 : v ≤ 1)
    (hw : (accumulate_trait_evidence scorer quiz_responses questions trait).total_weight ≠ 0) :
    (trait, (update_single_trait scorer quiz_responses questions trait v).1) ∈
      (update_traits scorer current_traits quiz_responses questions).updated_traits ∧
    ((v < (accumulate_trait_evidence scorer quiz_responses questions trait).weighted_sum /
          (accumulate_trait_evidence scorer quiz_responses questions trait).total_weight →
      v < (update_single_trait scorer quiz_responses questions trait v).1 ∧
      (update_single_trait scorer quiz_responses questions trait v).1 ≤
        (accumulate_trait_evidence scorer quiz_responses questions trait).weighted_sum /
        (accumulate_trait_evidence scorer quiz_responses questions trait).total_weight) ∧
     ((accumulate_trait_evidence scorer quiz_responses questions trait).weighted_sum /
          (accumulate_trait_evidence scorer quiz_responses questions trait).total_weight < v →
      (accumulate_trait_evidence scorer quiz_responses questions trait).weighted_sum /
        (accumulate_trait_evidence scorer quiz_responses questions trait).total_weight ≤
        (update_single_trait scorer quiz_responses questions trait v).1 ∧
      (update_single_trait scorer quiz_responses questions trait v).1 ≤ v)) := by
  obtain ⟨hta, htb, htc⟩ := acc_inv_holds scorer quiz_responses questions trait
  have htw : 0 < (accumulate_trait_evidence scorer quiz_responses questions trait).total_weight :=
    lt_of_le_of_ne hta (Ne.symm hw)
  set avg := (accumulate_trait_evidence scorer quiz_responses questions trait).weighted_sum /
    (accumulate_trait_evidence scorer quiz_responses questions trait).total_weight with havg
  have havg0 : 0 ≤ avg := div_nonneg htb hta
  have havg1 : avg ≤ 1 := (div_le_one htw).mpr htc
  have hnv : (update_single_trait scorer quiz_responses questions trait v).1 =
      clamp01 (v + trait_sensitivity trait * (avg - v)) :=
    update_single_trait_with_evidence scorer quiz_responses questions trait v hw
  obtain ⟨hg0, hg1⟩ := trait_sensitivity_mem trait
  refine ⟨?_, ?_, ?_⟩
  · simp only [update_traits, List.mem_map]
    exact ⟨(trait, v), hmem, rfl⟩
  · intro hlt
    have hub : v + trait_sensitivity trait * (avg - v) ≤ avg := by nlinarith
    have hlb : v < v + trait_sensitivity trait * (avg - v) := by nlinarith
    rw [hnv, clamp01_eq_self (le_trans h0 (le_of_lt hlb)) (le_trans hub havg1)]
    exact ⟨hlb, hub⟩
  · intro hlt
    have hlb : avg ≤ v + trait_sensitivity trait * (avg - v) := by nlinarith
    have hub : v + trait_sensitivity trait * (avg - v) < v := by nlinarith
    rw [hnv, clamp01_eq_self (le_trans havg0 hlb) (le_trans (le_of_lt hub) h1)]
    exact ⟨hlb, le_of_lt hub⟩

theorem w6_acc : accumulate_trait_evidence zero_scorer [⟨some 1, true, 1, "", none⟩]
    [⟨some 1, ["curiosity"], false, "medium", false⟩] "curiosity" = ⟨1, 9/5, 9/5⟩ := by
  have hev : gather_evidence zero_scorer ⟨some 1, true, 1, "", none⟩
      ⟨some 1, ["curiosity"], false, "medium", false⟩ "curiosity" = ⟨1, 9/5⟩ := by
    simp [gather_evidence, calculate_calibration_score, clamp01, zero_scorer]
    norm_num [min_def, max_def]
  simp [accumulate_trait_evidence, find_question, effective_targets, hev]

theorem update_traits_monotone_toward_evidence_witness :
    (("curiosity" : String),
      (update_single_trait zero_scorer [⟨some 1, true, 1, "", none⟩]
        [⟨some 1, ["curiosity"], false, "medium", false⟩] "curiosity" (1/2)).1) ∈
      (update_traits zero_scorer [("curiosity", (1:ℚ)/2)] [⟨some 1, true, 1, "", none⟩]
        [⟨some 1, ["curiosity"], false, "medium", false⟩]).updated_traits ∧
    (1:ℚ)/2 < (update_single_trait zero_scorer [⟨some 1, true, 1, "", none⟩]
        [⟨some 1, ["curiosity"], false, "medium", false⟩] "curiosity" (1/2)).1 := by
  have h := update_traits_monotone_toward_evidence zero_scorer [("curiosity", (1:ℚ)/2)]
    [⟨some 1, true, 1, "", none⟩] [⟨some 1, ["curiosity"], false, "medium", false⟩]
    "curiosity" (1/2) (by simp) (by norm_num) (by norm_num) (by rw [w6_acc]; norm_num)
  refine ⟨h.1, ?_⟩
  have h2 := h.2.1
  rw [w6_acc] at h2
  exact (h2 (by norm_num)).1

/-- The total evidence weight exactly as the claim states it: correctness
weight 1.0, calibration weight 1.2 for traits in
{confidence, metacognition, precision} else 0.8, and a reasoning weight
(1.5 for {analytical_depth, metacognition, curiosity} else 0.5) only when a
reasoning text is supplied. -/
def evidence_weight_spec (response : QuizResponse) (trait : String) : ℚ :=
  let calibration_weight : ℚ :=
    if trait ∈ ["confidence", "metacognition", "precision"] then 12/10 else 8/10
  let reasoning_weight : ℚ :=
    if trait ∈ ["analytical_depth", "metacognition", "curiosity"] then 15/10 else 5/10
  1 + calibration_weight + (if response.reasoning = "" then 0 else reasoning_weight)

/-- The evidence score exactly as the claim states it:
clamp((Σ weighted component scores − penalty) / Σ weights, 0, 1), with the
correctness score (1 if correct else 0) at weight 1.0, the calibration score
1 − |confidence − accuracy| at its trait-dependent weight, the reasoning
score and weight both omitted when no reasoning text was supplied, and —
only for an incorrect response whose detected misconception affects this
trait — a penalty of misconception_confidence × 0.15 × total weight
subtracted from the numerator rather than added as a weighted term. -/
def evidence_score_spec (scorer : String → String → ℚ) (response : QuizResponse)
    (trait : String) : ℚ :=
  let accuracy : ℚ := if response.is_correct then 1 else 0
  let correctness_score : ℚ := if response.is_correct then 1 else 0
  let calibration_score : ℚ := 1 - |response.confidence - accuracy|
  let calibration_weight : ℚ :=
    if trait ∈ ["confidence", "metacognition", "precision"] then 12/10 else 8/10
  let reasoning_weight : ℚ :=
    if trait ∈ ["analytical_depth", "metacognition", "curiosity"] then 15/10 else 5/10
  let total_weight : ℚ := evidence_weight_spec response trait
  let weighted_sum : ℚ := correctness_score * 1 + calibration_score * calibration_weight +
    (if response.reasoning = "" then 0 else scorer response.reasoning trait * reasoning_weight)
  let penalty : ℚ :=
    match response.misconception_addressed with
    | none => 0
    | some m =>
        if ¬ response.is_correct ∧ trait ∈ m.affected_traits then
          m.confidence * (15/100) * total_weight
        else 0
  clamp01 ((weighted_sum - penalty) / total_weight)

theorem evidence_weight_spec_pos (response : QuizResponse) (trait : String) :
    0 < evidence_weight_spec response trait := by
  simp only [evidence_weight_spec]
  split_ifs <;> norm_num

/-- C2: the evidence sample computed by `_gather_evidence` equals, for every
response, question, trait and reasoning scorer, the claim's closed-form
weighted-sum formula — including the conditional component weights, the
omission of the reasoning term (score AND weight) without reasoning text, and
the confidence-scaled misconception penalty subtracted from the numerator. -/
theorem gather_evidence_matches_spec_formula :
    ∀ (scorer : String → String → ℚ) (r : QuizResponse) (q : Question) (t : String),
      (gather_evidence scorer r q t).score = evidence_score_spec scorer r t ∧
      (gather_evidence scorer r q t).weight = evidence_weight_spec r t := by
  intro scorer r q t
  constructor
  · simp only [gather_evidence, evidence_score_spec, evidence_weight_spec,
      calculate_calibration_score]
    cases hm : r.misconception_addressed with
    | none =>
        split_ifs <;> (try (exfalso; norm_num at * <;> done)) <;> (congr 1; ring)
    | some m =>
        by_cases hp : ¬ r.is_correct = true ∧ t ∈ m.affected_traits
        · simp only [if_pos hp]
          split_ifs <;> (try (exfalso; norm_num at * <;> done)) <;> (congr 1; ring)
        · simp only [if_neg hp]
          split_ifs <;> (try (exfalso; norm_num at * <;> done)) <;> (congr 1; ring)
  · simp only [gather_evidence, evidence_weight_spec]
    split_ifs <;> norm_num

/-- The first of the two C5 example responses: correct, confidence 0.9, no
reasoning text. -/
def c5_response1 : QuizResponse := ⟨some 1, true, 9/10, "", none⟩

/-- The second C5 example response, identical but for the question number. -/
def c5_response2 : QuizResponse := ⟨some 2, true, 9/10, "", none⟩

/-- The first C5 example question, Q-matrix-tagged `precision`. -/
def c5_question1 : Question := ⟨some 1, ["precision"], false, "medium", false⟩

/-- The second C5 example question, Q-matrix-tagged `precision`. -/
def c5_question2 : Question := ⟨some 2, ["precision"], false, "medium", false⟩

theorem c5_evidence1 : gather_evidence zero_scorer ⟨some 1, true, 9/10, "", none⟩
    ⟨some 1, ["precision"], false, "medium", false⟩ "precision" = ⟨52/55, 11/5⟩ := by
  have habs : |(9:ℚ)/10 - 1| = 1/10 := by rw [abs_sub_comm, abs_of_nonneg] <;> norm_num
  simp [gather_evidence, calculate_calibration_score, clamp01, zero_scorer]
  rw [habs]
  norm_num [min_def, max_def]

theorem c5_evidence2 : gather_evidence zero_scorer ⟨some 2, true, 9/10, "", none⟩
    ⟨some 2, ["precision"], false, "medium", false⟩ "precision" = ⟨52/55, 11/5⟩ := by
  have habs : |(9:ℚ)/10 - 1| = 1/10 := by rw [abs_sub_comm, abs_of_nonneg] <;> norm_num
  simp [gather_evidence, calculate_calibration_score, clamp01, zero_scorer]
  rw [habs]
  norm_num [min_def, max_def]

theorem c5_accumulated : accumulate_trait_evidence zero_scorer [c5_response1, c5_response2]
    [c5_question1, c5_question2] "precision" = ⟨2, 22/5, 104/25⟩ := by
  simp [accumulate_trait_evidence, find_question, effective_targets,
    c5_question1, c5_question2, c5_response1, c5_response2, c5_evidence1, c5_evidence2]
  norm_num

/-- C5 counterexample: on the spec's own example (correct response,
confidence 0.9, no reasoning, trait `precision`) the evidence score computed
by `_gather_evidence` is (1·1 + 0.9·1.2)/(1 + 1.2) = 52/55 ≈ 0.945 — because
`precision` is one of the calibration-heavy traits carrying weight 1.2 — and
NOT the claimed (1·1 + 0.9·0.8)/(1 + 0.8) ≈ 0.956; the updated precision is
1247/2200 ≈ 0.5668, not 0.5 + 0.15·((1 + 0.72)/1.8 − 0.5) ≈ 0.5683. -/
theorem c5_example_counterexample :
    (gather_evidence zero_scorer c5_response1 c5_question1 "precision").score = 52/55 ∧
    ¬ ((52:ℚ)/55 = (1 * 1 + (9/10) * (8/10)) / (1 + 8/10)) ∧
    (update_traits zero_scorer [("precision", 1/2)] [c5_response1, c5_response2]
      [c5_question1, c5_question2]).updated_traits = [("precision", 1247/2200)] ∧
    ¬ ((1247:ℚ)/2200 = 1/2 + (15/100) * ((1 * 1 + (9/10) * (8/10)) / (1 + 8/10) - 1/2)) := by
  refine ⟨?_, by norm_num, ?_, by norm_num⟩
  · rw [show c5_response1 = ⟨some 1, true, 9/10, "", none⟩ from rfl,
      show c5_question1 = ⟨some 1, ["precision"], false, "medium", false⟩ from rfl,
      c5_evidence1]
  · simp [update_traits, update_single_trait, c5_accumulated, clamp01, trait_sensitivity]
    norm_num [min_def, max_def]

/-- C5 amended: with the code's actual calibration weight 1.2 for
`precision`, each of the two evidence samples scores
(1·1 + 0.9·1.2)/(1 + 1.2) = 52/55 ≈ 0.945 at weight 2.2, the evidence-
weighted average is 52/55, and the updated precision is
0.5 + 0.15·(52/55 − 0.5) = 1247/2200 ≈ 0.567. -/
theorem c5_example_amended :
    (gather_evidence zero_scorer c5_response1 c5_question1 "precision").score =
      (1 * 1 + (9/10) * (12/10)) / (1 + 12/10) ∧
    (gather_evidence zero_scorer c5_response1 c5_question1 "precision").weight = 1 + 12/10 ∧
    (accumulate_trait_evidence zero_scorer [c5_response1, c5_response2]
      [c5_question1, c5_question2] "precision").weighted_sum /
      (accumulate_trait_evidence zero_scorer [c5_response1, c5_response2]
        [c5_question1, c5_question2] "precision").total_weight = 52/55 ∧
    (update_traits zero_scorer [("precision", 1/2)] [c5_response1, c5_response2]
      [c5_question1, c5_question2]).updated_traits =
      [("precision", 1/2 + (15/100) * (52/55 - 1/2))] := by
  have h1 : gather_evidence zero_scorer c5_response1 c5_question1 "precision" = ⟨52/55, 11/5⟩ := by
    rw [show c5_response1 = ⟨some 1, true, 9/10, "", none⟩ from rfl,
      show c5_question1 = ⟨some 1, ["precision"], false, "medium", false⟩ from rfl,
      c5_evidence1]
  refine ⟨?_, ?_, ?_, ?_⟩
  · rw [h1]; norm_num
  · rw [h1]; norm_num
  · rw [c5_accumulated]; norm_num
  · simp [update_traits, update_single_trait, c5_accumulated, clamp01, trait_sensitivity]
    norm_num [min_def, max_def]

/-- C8: whenever the LLM call is unavailable (raises), returns empty content,
or returns unparseable output, `score_assessment_responses` returns the
neutral `CognitiveTraits()` — every one of the eight traits 0.5 — rather
than propagating an exception; this holds with or without an API key. -/
theorem score_assessment_responses_degrades_gracefully :
    ∀ (has_api_key : Bool),
      score_assessment_responses has_api_key .unavailable = default_cognitive_traits ∧
      score_assessment_responses has_api_key .empty_content = default_cognitive_traits ∧
      score_assessment_responses has_api_key .malformed = default_cognitive_traits ∧
      default_cognitive_traits = ⟨1/2, 1/2, 1/2, 1/2, 1/2, 1/2, 1/2, 1/2⟩ := by
  intro has_api_key
  cases has_api_key <;>
    exact ⟨rfl, rfl, rfl, rfl⟩

/-- A linguistically rich 8-word, one-sentence text: every word distinct, so
its type-token ratio is 1 and the spec's generic linguistic-quality heuristic
awards a positive score. -/
def c7_text : String := "Careful analysis reveals surprising connections between distant concepts today."

/-- C7 counterexample: for the unhandled trait `confidence` and a reasoning
text of at least 5 words, the regex/heuristic strategy of the source returns
score 0 — the initial `score = 0.0` untouched, because its `if`/`elif`
dispatch has no generic fallback branch — while the spec's generic
linguistic-quality heuristic (vocabulary diversity over 0.6) awards 0.3.
The fallback-to-generic-heuristics contract therefore fails in the
regex/heuristic strategy. -/
theorem c7_heuristic_no_generic_fallback_counterexample :
    5 ≤ (py_words c7_text).length ∧
    score_reasoning_quality_heuristic zero_scorer c7_text "confidence" = 0 ∧
    generic_linguistic_quality c7_text = 3/10 ∧
    score_reasoning_quality_heuristic zero_scorer c7_text "confidence" ≠
      generic_linguistic_quality c7_text := by
  have hlen : ¬ (py_words c7_text).length < 5 := by decide
  have h2 : score_reasoning_quality_heuristic zero_scorer c7_text "confidence" = 0 := by
    simp [score_reasoning_quality_heuristic, enhanced_heuristic_scoring, clamp01]
    omega
  have hw : (py_words c7_text).length = 9 := by decide
  have hs : ((py_split (fun c => c == '.' || c == '!' || c == '?') c7_text.data).filter
      (fun s => s.any (fun c => ! c.isWhitespace))).length = 1 := by decide
  have hd : ((py_words c7_text).map (fun w => w.map char_lower)).dedup.length = 9 := by decide
  have h3 : generic_linguistic_quality c7_text = 3/10 := by
    simp only [generic_linguistic_quality, hw, hs, hd]
    norm_num [max_def]
  exact ⟨by decide, h2, h3, by rw [h2, h3]; norm_num⟩

/-- C7 amended: in the regex/heuristic fallback strategy, a trait outside the
six specifically-handled trait names (e.g. `confidence` or
`attention_consistency`) receives score 0 for every reasoning text of at
least 5 words, whatever the branch scorers do — there is no generic
linguistic-quality fallback in this strategy — while the strategy's returned
score does always lie in [0,1] (the 0.3 short-circuit or a clamped value). -/
theorem score_reasoning_quality_heuristic_unknown_trait
    (branch_score : String → String → ℚ) (text trait : String)
    (h : trait ∉ heuristic_handled_traits)
    (hlen : 5 ≤ (py_words text).length) :
    score_reasoning_quality_heuristic branch_score text trait = 0 ∧
    (∀ (text2 trait2 : String),
      0 ≤ score_reasoning_quality_heuristic branch_score text2 trait2 ∧
      score_reasoning_quality_heuristic branch_score text2 trait2 ≤ 1) := by
  constructor
  · simp only [heuristic_handled_traits, List.mem_cons, List.not_mem_nil, or_false] at h
    push_neg at h
    obtain ⟨h1, h2, h3, h4, h5, h6⟩ := h
    simp only [score_reasoning_quality_heuristic]
    rw [if_neg (by omega)]
    rw [show enhanced_heuristic_scoring branch_score text trait = 0 from by
      simp [enhanced_heuristic_scoring, h1, h2, h3, h4, h5, h6]]
    norm_num [clamp01, min_def, max_def]
  · intro text2 trait2
    simp only [score_reasoning_quality_heuristic]
    split_ifs
    · norm_num
    · exact ⟨clamp01_nonneg _, clamp01_le_one _⟩

theorem score_reasoning_quality_heuristic_unknown_trait_witness :
    score_reasoning_quality_heuristic zero_scorer c7_text "confidence" = 0 ∧
    (∀ (text2 trait2 : String),
      0 ≤ score_reasoning_quality_heuristic zero_scorer text2 trait2 ∧
      score_reasoning_quality_heuristic zero_scorer text2 trait2 ≤ 1) :=
  score_reasoning_quality_heuristic_unknown_trait zero_scorer c7_text "confidence"
    (by decide) (by decide)

/-- C3: with similarity threshold 0.85 and frequency threshold 3, the
promotion check rejects as `duplicate` whenever the similarity derived from
the nearest same-domain neighbor reaches 0.85, regardless of the learner
population; otherwise it rejects as `insufficient_frequency` when fewer than
3 distinct learners hold a case-insensitive text match; otherwise it promotes
and creates the global record with `novelty_score = 1 − similarity` and the
matching learner count as frequency. -/
theorem check_and_promote_two_gate_quorum
    (users : List UserRecord) (neighbor_distances : List ℚ)
    (misconception_text topic domain : String) :
    ((85:ℚ)/100 ≤ max_similarity_of neighbor_distances →
      (check_and_promote_misconception_to_global users neighbor_distances
        misconception_text topic domain 3 (85/100)).1.promoted = false ∧
      (check_and_promote_misconception_to_global users neighbor_distances
        misconception_text topic domain 3 (85/100)).1.reason = some "duplicate" ∧
      (check_and_promote_misconception_to_global users neighbor_distances
        misconception_text topic domain 3 (85/100)).2 = none) ∧
    (max_similarity_of neighbor_distances < 85/100 →
      count_students_with_misconception misconception_text users < 3 →
      (check_and_promote_misconception_to_global users neighbor_distances
        misconception_text topic domain 3 (85/100)).1.promoted = false ∧
      (check_and_promote_misconception_to_global users neighbor_distances
        misconception_text topic domain 3 (85/100)).1.reason = some "insufficient_frequency" ∧
      (check_and_promote_misconception_to_global users neighbor_distances
        misconception_text topic domain 3 (85/100)).2 = none) ∧
    (max_similarity_of neighbor_distances < 85/100 →
      3 ≤ count_students_with_misconception misconception_text users →
      (check_and_promote_misconception_to_global users neighbor_distances
        misconception_text topic domain 3 (85/100)).1.promoted = true ∧
      (check_and_promote_misconception_to_global users neighbor_distances
        misconception_text topic domain 3 (85/100)).2 =
        some ⟨domain, topic, misconception_text,
          count_students_with_misconception misconception_text users,
          1 - max_similarity_of neighbor_distances⟩) := by
  refine ⟨?_, ?_, ?_⟩
  · intro hsim
    simp only [check_and_promote_misconception_to_global]
    rw [if_pos hsim]
    exact ⟨rfl, rfl, rfl⟩
  · intro hsim hcount
    simp only [check_and_promote_misconception_to_global]
    rw [if_neg (not_le.mpr hsim), if_pos hcount]
    exact ⟨rfl, rfl, rfl⟩
  · intro hsim hcount
    simp only [check_and_promote_misconception_to_global]
    rw [if_neg (not_le.mpr hsim), if_neg (Nat.not_lt.mpr hcount)]
    exact ⟨rfl, rfl⟩

/-- A learner record holding one misconception text, used to exercise the
promotion gates at concrete inputs. -/
def sample_user (uid : String) : UserRecord :=
  ⟨uid, [("Newtonian mechanics",
    [⟨"m1", "Heavier objects fall faster", "Newtonian mechanics", none, none,
      0, 1, 0, false, none, 0, 0, "medium", none⟩])]⟩

theorem check_and_promote_two_gate_quorum_witness :
    ((check_and_promote_misconception_to_global
        [sample_user "u1", sample_user "u2", sample_user "u3"] [(3:ℚ)/10]
        "heavier objects fall" "Newtonian mechanics" "Physics" 3 (85/100)).1.promoted
      = false) ∧
    ((check_and_promote_misconception_to_global
        [sample_user "u1", sample_user "u2", sample_user "u3"] [(3:ℚ)/10]
        "heavier objects fall" "Newtonian mechanics" "Physics" 3 (85/100)).1.reason
      = some "duplicate") ∧
    ((check_and_promote_misconception_to_global
        [sample_user "u1", sample_user "u2"] [(1:ℚ)]
        "heavier objects fall" "Newtonian mechanics" "Physics" 3 (85/100)).1.reason
      = some "insufficient_frequency") ∧
    ((check_and_promote_misconception_to_global
        [sample_user "u1", sample_user "u2", sample_user "u3"] [(1:ℚ)]
        "heavier objects fall" "Newtonian mechanics" "Physics" 3 (85/100)).1.promoted
      = true) ∧
    ((check_and_promote_misconception_to_global
        [sample_user "u1", sample_user "u2", sample_user "u3"] [(1:ℚ)]
        "heavier objects fall" "Newtonian mechanics" "Physics" 3 (85/100)).2
      = some ⟨"Physics", "Newtonian mechanics", "heavier objects fall", 3, 1/2⟩) := by
  have hc3 : count_students_with_misconception "heavier objects fall"
      [sample_user "u1", sample_user "u2", sample_user "u3"] = 3 := by decide
  have hc2 : count_students_with_misconception "heavier objects fall"
      [sample_user "u1", sample_user "u2"] = 2 := by decide
  have h1 := check_and_promote_two_gate_quorum
    [sample_user "u1", sample_user "u2", sample_user "u3"] [(3:ℚ)/10]
    "heavier objects fall" "Newtonian mechanics" "Physics"
  have h2 := check_and_promote_two_gate_quorum
    [sample_user "u1", sample_user "u2"] [(1:ℚ)]
    "heavier objects fall" "Newtonian mechanics" "Physics"
  have h3 := check_and_promote_two_gate_quorum
    [sample_user "u1", sample_user "u2", sample_user "u3"] [(1:ℚ)]
    "heavier objects fall" "Newtonian mechanics" "Physics"
  have hs1 : (85:ℚ)/100 ≤ max_similarity_of [(3:ℚ)/10] := by
    simp [max_similarity_of]; norm_num
  have hs2 : max_similarity_of [(1:ℚ)] < 85/100 := by
    simp [max_similarity_of]; norm_num
  refine ⟨(h1.1 hs1).1, (h1.1 hs1).2.1, ?_, ?_, ?_⟩
  · exact (h2.2.1 hs2 (by rw [hc2]; norm_num)).2.1
  · exact (h3.2.2 hs2 (by rw [hc3])).1
  · have := (h3.2.2 hs2 (by rw [hc3])).2
    rw [hc3] at this
    rw [this]
    norm_num [max_similarity_of]

theorem find_first_of_split {α : Type} (p : α → Bool) (l₁ l₂ : List α) (x : α)
    (h₁ : ∀ y ∈ l₁, p y = false) (hx : p x = true) :
    (l₁ ++ x :: l₂).find? p = some x := by
  induction l₁ with
  | nil => simpa using List.find?_cons_of_pos l₂ hx
  | cons a tl ih =>
      rw [List.cons_append, List.find?_cons_of_neg]
      · exact ih (fun y hy => h₁ y (List.mem_cons_of_mem a hy))
      · simp [h₁ a (List.mem_cons_self a tl)]

theorem update_first_of_split {α : Type} (p : α → Bool) (f : α → α) (l₁ l₂ : List α) (x : α)
    (h₁ : ∀ y ∈ l₁, p y = false) (hx : p x = true) :
    update_first p f (l₁ ++ x :: l₂) = l₁ ++ f x :: l₂ := by
  induction l₁ with
  | nil => simp [update_first, hx]
  | cons a tl ih =>
      rw [List.cons_append, update_first, if_neg (by simp [h₁ a (List.mem_cons_self a tl)]),
        List.cons_append, ih (fun y hy => h₁ y (List.mem_cons_of_mem a hy))]

theorem get_set_topic (pm : PersonalMisconceptionMap) (topic : String)
    (l : List PersonalMisconception) :
    get_topic_misconceptions (set_topic_misconceptions pm topic l) topic = l := by
  induction pm with
  | nil =>
      simp [set_topic_misconceptions, get_topic_misconceptions,
        List.find?_cons_of_pos, beq_self_eq_true]
  | cons e tl ih =>
      by_cases h : e.1 == topic
      · rw [set_topic_misconceptions, if_pos h]
        unfold get_topic_misconceptions
        rw [show List.find? (fun e => e.1 == topic) ((e.1, l) :: tl) = some (e.1, l) from
          List.find?_cons_of_pos _ h]
        rfl
      · rw [set_topic_misconceptions, if_neg h]
        unfold get_topic_misconceptions at ih ⊢
        rw [show List.find? (fun e => e.1 == topic) (e :: set_topic_misconceptions tl topic l) =
            List.find? (fun e => e.1 == topic) (set_topic_misconceptions tl topic l) from
          List.find?_cons_of_neg _ h]
        exact ih

/-- C4: the per-(learner, topic, case-insensitively matched text) lifecycle:
(a) a freshly detected misconception (no prior match in the topic) is stored
with frequency 1, correct_streak 0 and resolved = false; (b) a correct answer
tied to a tracked misconception increments its streak and, exactly when the
streak reaches the threshold 3, marks it resolved with a resolution
timestamp (and only then reports resolution); (c) a re-detection of the same
text increments frequency, refreshes last_occurrence, resets the streak to 0
and forces resolved back to false — with no condition on the prior resolved
flag, so a previously Resolved record relapses to Active. -/
theorem personal_misconception_lifecycle :
    (∀ (pm : PersonalMisconceptionMap) (d : DiscoveredMisconception)
       (qc sr : String) (now : Nat) (new_id : String),
      (∀ mc ∈ get_topic_misconceptions pm d.topic,
        (lower_chars mc.misconception_text == lower_chars d.misconception_text) = false) →
      get_topic_misconceptions (store_personal_misconception pm d qc sr now new_id).1 d.topic =
        get_topic_misconceptions pm d.topic ++
          [⟨new_id, d.misconception_text, d.topic, some qc, some sr, now, 1, now, false, none,
            0, 0, d.severity, d.related_trait⟩]) ∧
    (∀ (pm : PersonalMisconceptionMap) (topic mid : String) (now : Nat)
       (l₁ l₂ : List PersonalMisconception) (mc : PersonalMisconception),
      get_topic_misconceptions pm topic = l₁ ++ mc :: l₂ →
      (∀ y ∈ l₁, (y.misconception_id == mid) = false) →
      (mc.misconception_id == mid) = true →
      (get_topic_misconceptions
          (update_misconception_resolution_status pm topic mid true 3 now).1 topic =
        l₁ ++ (if 3 ≤ mc.correct_streak + 1 then
            { mc with correct_streak := mc.correct_streak + 1, resolved := true,
                      resolution_date := some now }
          else { mc with correct_streak := mc.correct_streak + 1 }) :: l₂) ∧
      ((update_misconception_resolution_status pm topic mid true 3 now).2 =
        decide (3 ≤ mc.correct_streak + 1))) ∧
    (∀ (pm : PersonalMisconceptionMap) (d : DiscoveredMisconception)
       (qc sr : String) (now : Nat) (new_id : String)
       (l₁ l₂ : List PersonalMisconception) (mc : PersonalMisconception),
      get_topic_misconceptions pm d.topic = l₁ ++ mc :: l₂ →
      (∀ y ∈ l₁,
        (lower_chars y.misconception_text == lower_chars d.misconception_text) = false ∧
        (y.misconception_id == mc.misconception_id) = false) →
      (lower_chars mc.misconception_text == lower_chars d.misconception_text) = true →
      get_topic_misconceptions (store_personal_misconception pm d qc sr now new_id).1 d.topic =
        l₁ ++ { mc with frequency := mc.frequency + 1, last_occurrence := now,
                        resolved := false, correct_streak := 0 } :: l₂) := by
  refine ⟨?_, ?_, ?_⟩
  · intro pm d qc sr now new_id h
    have hfind : (get_topic_misconceptions pm d.topic).find?
        (fun mc => lower_chars mc.misconception_text == lower_chars d.misconception_text)
        = none :=
      List.find?_eq_none.mpr (fun x hx => by simp [h x hx])
    simp only [store_personal_misconception, hfind]
    rw [get_set_topic]
  · intro pm topic mid now l₁ l₂ mc htm h₁ hmc
    have hincr : update_first (fun mc => mc.misconception_id == mid)
        (fun mc => { mc with correct_streak := mc.correct_streak + 1 }) (l₁ ++ mc :: l₂) =
        l₁ ++ { mc with correct_streak := mc.correct_streak + 1 } :: l₂ :=
      update_first_of_split _ _ l₁ l₂ mc h₁ hmc
    have hfind : (l₁ ++ { mc with correct_streak := mc.correct_streak + 1 } :: l₂).find?
        (fun mc => mc.misconception_id == mid)
        = some { mc with correct_streak := mc.correct_streak + 1 } :=
      find_first_of_split _ l₁ l₂ _ h₁ hmc
    have hany : (l₁ ++ mc :: l₂).any (fun mc => mc.misconception_id == mid) = true := by
      simp [List.any_append, List.any_cons, hmc]
    simp only [update_misconception_resolution_status, htm, hincr, hfind, hany, if_true]
    by_cases hth : 3 ≤ mc.correct_streak + 1
    · have hresolve : update_first (fun x => x.misconception_id == mid)
          (fun x => { x with resolved := true, resolution_date := some now })
          (l₁ ++ { mc with correct_streak := mc.correct_streak + 1 } :: l₂) =
          l₁ ++ { mc with correct_streak := mc.correct_streak + 1, resolved := true,
                          resolution_date := some now } :: l₂ :=
        update_first_of_split _ _ l₁ l₂ _ h₁ hmc
      rw [if_pos hth, if_pos hth, hresolve, get_set_topic]
      exact ⟨rfl, (decide_eq_true hth).symm⟩
    · rw [if_neg hth, if_neg hth, get_set_topic]
      refine ⟨rfl, ?_⟩
      simp [hth]
  · intro pm d qc sr now new_id l₁ l₂ mc htm h₁ hmc
    have hfind : (l₁ ++ mc :: l₂).find?
        (fun x => lower_chars x.misconception_text == lower_chars d.misconception_text)
        = some mc :=
      find_first_of_split _ l₁ l₂ mc (fun y hy => (h₁ y hy).1) hmc
    have hupd : update_first (fun x => x.misconception_id == mc.misconception_id)
        (fun x => { x with frequency := x.frequency + 1, last_occurrence := now,
                           resolved := false, correct_streak := 0 }) (l₁ ++ mc :: l₂) =
        l₁ ++ { mc with frequency := mc.frequency + 1, last_occurrence := now,
                        resolved := false, correct_streak := 0 } :: l₂ :=
      update_first_of_split _ _ l₁ l₂ mc (fun y hy => (h₁ y hy).2) (beq_self_eq_true _)
    simp only [store_personal_misconception, htm, hfind, hupd]
    rw [get_set_topic]

/-- A discovered misconception used to exercise the lifecycle at concrete
inputs. -/
def w4_d : DiscoveredMisconception :=
  ⟨"Confuses mass and weight", "Mechanics", 8/10, "evidence", "medium", none, none⟩

/-- A tracked record for the same text with a correct-answer streak of 2. -/
def w4_rec2 : PersonalMisconception :=
  ⟨"id1", "Confuses mass and weight", "Mechanics", some "q", some "r", 100, 1, 100,
   false, none, 2, 0, "medium", none⟩

/-- A previously resolved record for the same text. -/
def w4_resolved : PersonalMisconception :=
  ⟨"id1", "Confuses mass and weight", "Mechanics", some "q", some "r", 100, 1, 100,
   true, some 200, 3, 0, "medium", none⟩

theorem personal_misconception_lifecycle_witness :
    (get_topic_misconceptions
        (store_personal_misconception [] w4_d "q" "r" 100 "id1").1 w4_d.topic
      = [⟨"id1", "Confuses mass and weight", "Mechanics", some "q", some "r", 100, 1, 100,
          false, none, 0, 0, "medium", none⟩]) ∧
    (get_topic_misconceptions
        (update_misconception_resolution_status
          [("Mechanics", [w4_rec2])] "Mechanics" "id1" true 3 200).1 "Mechanics"
      = [⟨"id1", "Confuses mass and weight", "Mechanics", some "q", some "r", 100, 1, 100,
          true, some 200, 3, 0, "medium", none⟩]) ∧
    ((update_misconception_resolution_status
        [("Mechanics", [w4_rec2])] "Mechanics" "id1" true 3 200).2 = true) ∧
    (get_topic_misconceptions
        (store_personal_misconception [("Mechanics", [w4_resolved])] w4_d "q2" "r2" 300 "id9").1
        w4_d.topic
      = [⟨"id1", "Confuses mass and weight", "Mechanics", some "q", some "r", 100, 2, 300,
          false, some 200, 0, 0, "medium", none⟩]) := by
  obtain ⟨hfresh, hcorrect, hredetect⟩ := personal_misconception_lifecycle
  refine ⟨?_, ?_, ?_, ?_⟩
  · exact (hfresh [] w4_d "q" "r" 100 "id1"
      (by simp [get_topic_misconceptions])).trans (by decide)
  · exact ((hcorrect [("Mechanics", [w4_rec2])] "Mechanics" "id1" 200 [] [] w4_rec2
      (by decide) (by simp) (by decide)).1).trans (by decide)
  · exact ((hcorrect [("Mechanics", [w4_rec2])] "Mechanics" "id1" 200 [] [] w4_rec2
      (by decide) (by simp) (by decide)).2).trans (by decide)
  · exact (hredetect [("Mechanics", [w4_resolved])] w4_d "q2" "r2" 300 "id9" [] [] w4_resolved
      (by decide) (by simp) (by decide)).trans (by decide)
